import Mathlib

/-!
# Admin content console (`deaddit/static/admin/content.js`)

A shallow embedding of the `ContentManager` class: its fields, the parts of the
page it reads and writes, and its methods as state transformers.

Conventions of the embedding
* JavaScript numbers that hold page numbers are `Int`.
* A JavaScript string whose length is measured (`truncate`) is the list of its
  UTF-16 code units; identifiers, messages and paths, which are only compared
  and concatenated, are `String`s.
* A JavaScript `Set` of strings is a duplicate-free list in insertion order
  (`Array.from` enumerates a `Set` in insertion order).
* The four content types `'users'`, `'subdeaddits'`, `'posts'`, `'comments'`
  that the source enumerates in `setupEventListeners` are the constructors of
  `Kind`; the page elements whose id is built from a type
  (`#usersTable`, `usersPagination`, `selectAllUsers`, `usersSearch`, ...) are
  fields indexed by `Kind`.
* The page elements the source looks up by id (search inputs, "select all"
  checkboxes, pagination containers, the confirmation modal and its texts) are
  present, so the `if (element)` guards of the source pass; the posts filter is
  read with `?.value` and may be absent.
* An `async` method is split at its first `await`: the part that runs
  synchronously (and issues the request) is one function, the continuation that
  consumes the response another (`loadContentOnResponse`, `editOnResponse`,
  `executeDeleteOnResponse`).  Requests issued with `fetch` are appended to
  the `requests` log, notifications shown with `showAlert` to the `alerts` log.
-/

namespace ContentManager

/-! ## Data -/

/-- The content types the console manages. -/
inductive Kind where
  | users
  | subdeaddits
  | posts
  | comments
  deriving DecidableEq, Repr

/-- The string a content type is written as in the source. -/
def Kind.name : Kind → String
  | .users => "users"
  | .subdeaddits => "subdeaddits"
  | .posts => "posts"
  | .comments => "comments"

/-- The text of a pagination link. -/
inductive LinkText where
  | previous
  | page (i : Int)
  | next
  deriving DecidableEq, Repr

/-- One `li.page-item` of a pagination container: whether its class list has
`active`, the argument of `goToPage` in its `onclick`, and its text. -/
structure PageLink where
  active : Bool
  target : Int
  text : LinkText
  deriving DecidableEq, Repr

/-- The pagination fields of a list response: `data.current_page`, `data.pages`. -/
structure PageData where
  current_page : Int
  pages : Int
  deriving DecidableEq, Repr

/-- Whether a link is a numbered page link (neither "Previous" nor "Next"). -/
def PageLink.isNumbered (l : PageLink) : Bool :=
  match l.text with
  | .page _ => true
  | _ => false

/-- The loop `for (let i = startPage; i <= endPage; i++)` of `renderPagination`,
entered with loop variable `i`: one numbered link per iteration. -/
def pageNumberLoop (current_page endPage : Int) (i : Int) : List PageLink :=
  if i ≤ endPage then
    { active := decide (i = current_page), target := i, text := .page i }
      :: pageNumberLoop current_page endPage (i + 1)
  else []
termination_by (endPage + 1 - i).toNat
decreasing_by omega

/-- The children appended to the (just emptied) pagination container by
`renderPagination`. -/
def paginationLinks (data : PageData) : List PageLink :=
  if data.pages ≤ 1 then []
  else
    (if data.current_page > 1 then
        [{ active := false, target := data.current_page - 1, text := .previous }]
      else [])
    ++ pageNumberLoop data.current_page (min data.pages (data.current_page + 2))
        (max 1 (data.current_page - 2))
    ++ (if data.current_page < data.pages then
        [{ active := false, target := data.current_page + 1, text := .next }]
      else [])

/-- The numbered page links among the children of a pagination container. -/
def numberedLinks (links : List PageLink) : List PageLink :=
  links.filter PageLink.isNumbered

/-- A JavaScript string as `length` and `substring` see it: the sequence of its
UTF-16 code units, each a number below 65536. -/
abbrev JSString := List Nat

/-- The UTF-16 code units of one character: the character itself in the basic
plane, a surrogate pair above it. -/
def utf16Char (c : Char) : List Nat :=
  if c.toNat < 65536 then [c.toNat]
  else [55296 + (c.toNat - 65536) / 1024, 56320 + (c.toNat - 65536) % 1024]

/-- The JavaScript string of a text. -/
def utf16 (text : String) : JSString :=
  (text.data.map utf16Char).flatten

/-- The method `truncate(text, length)`.  `text.length` counts and
`text.substring(0, length)` cuts UTF-16 code units; an absent text
(`undefined`/`null`) is `none`.  `!text` holds for an absent and for an empty
text. -/
def truncate (text : Option JSString) (length : Nat) : JSString :=
  match text with
  | none => []
  | some t =>
    if t = [] then []
    else if t.length > length then t.take length ++ utf16 "..." else t

/-! ### Sets of identifiers -/

/-- A JavaScript `Set` of strings: its elements in insertion order. -/
abbrev IdSet := List String

/-- The call `set.add(id)`: appends `id` unless it is already an element. -/
def IdSet.add (set : IdSet) (id : String) : IdSet :=
  if id ∈ set then set else set ++ [id]

/-- The call `set.delete(id)`: afterwards `id` is not an element. -/
def IdSet.delete (set : IdSet) (id : String) : IdSet :=
  set.filter (fun x => x ≠ id)

/-! ### The controller and the page -/

/-- A table row as far as selection is concerned: the `data-id` attribute and
the `checked` property of its `input.item-checkbox`. -/
structure Row where
  dataId : String
  checked : Bool
  deriving DecidableEq, Repr

/-- A notification shown by `showAlert(message, type)`. -/
structure Alert where
  message : String
  type : String
  deriving DecidableEq, Repr

/-- The `type` strings passed to `showDeleteConfirmation`: `'user'`,
`'subdeaddit'`, `'post'`, `'comment'`, and `'bulk-' + type` for a content type. -/
inductive DeleteType where
  | user
  | subdeaddit
  | post
  | comment
  | bulk (type : Kind)
  deriving DecidableEq, Repr

/-- The `id` passed to `showDeleteConfirmation`: one identifier, or the array
`Array.from(this.selectedItems)`. -/
inductive DeleteId where
  | one (id : String)
  | many (ids : List String)
  deriving DecidableEq, Repr

/-- The object `{ type, id }` stored in `this.pendingDelete`. -/
structure PendingDelete where
  type : DeleteType
  id : DeleteId
  deriving DecidableEq, Repr

/-- A request issued with `fetch`: method, path, the query parameters in the
order they were set, and the JSON body `{[key]: value}` if there is one. -/
structure Request where
  method : String
  path : String
  query : List (String × String)
  body : Option (String × DeleteId)
  deriving DecidableEq, Repr

/-- Errors a method can raise. -/
inductive JSError where
  | typeError
  deriving DecidableEq, Repr

/-- A record of a list payload: `id` is the identifier property the source
reads for its type (`username` of a user, `name` of a subdeaddit, `id` of a post
or comment, as text), `fields` its other properties. -/
structure Item where
  id : String
  fields : List (String × String)
  deriving DecidableEq, Repr

/-- The parsed body `data` of a list response.  `items type` is the property
named after the type (`data.users`, ..., `data.comments`), `none` when the body
has no such array; `current_page` and `pages` are read by `renderPagination`
only. -/
structure ListData where
  items : Kind → Option (List Item)
  current_page : Int
  pages : Int

/-- A response `fetch` resolves with: its HTTP status and what `response.json()`
yields, `none` when the body is not JSON (the promise is rejected). -/
structure Response (α : Type) where
  status : Nat
  json : Option α

/-- The fields of a `ContentManager` together with the parts of the page its
methods read and write, and the logs of requests and notifications. -/
structure State where
  /-- The field `this.currentTab`. -/
  currentTab : Kind
  /-- The field `this.currentPage`. -/
  currentPage : Int
  /-- The field `this.searchTerm`. -/
  searchTerm : String
  /-- The field `this.perPage`. -/
  perPage : Int
  /-- The field `this.selectedItems`. -/
  selectedItems : IdSet
  /-- The field `this.pendingDelete`; `none` while it is `undefined`. -/
  pendingDelete : Option PendingDelete
  /-- The rows of `#usersTable tbody`, ..., `#commentsTable tbody`. -/
  rows : Kind → List Row
  /-- The `checked` property of `selectAllUsers`, ..., `selectAllComments`. -/
  selectAllCheckbox : Kind → Bool
  /-- The value of `usersSearch`, ..., `commentsSearch`. -/
  searchInput : Kind → String
  /-- The value of `postsSubdeadditFilter`; `none` if the page has no such element. -/
  postsSubdeadditFilter : Option String
  /-- The children of `usersPagination`, ..., `commentsPagination`. -/
  pagination : Kind → List PageLink
  /-- The text of `deleteConfirmMessage`. -/
  deleteConfirmMessage : String
  /-- Whether `deleteImpactWarning` is displayed (`'block'`) or not (`'none'`). -/
  deleteImpactWarning : Bool
  /-- The text of `deleteImpactText`. -/
  deleteImpactText : String
  /-- Whether `deleteConfirmModal` has been shown and not hidden since. -/
  deleteConfirmModal : Bool
  /-- The values in the edit form of a type (`editUserId`, `editUserUsername`, ...):
  the identifier and the record they were filled from; `none` while never filled. -/
  editForm : Kind → Option (String × Item)
  /-- Whether `editUserModal`, ..., `editCommentModal` has been shown. -/
  editModal : Kind → Bool
  /-- The notifications shown so far, oldest first. -/
  alerts : List Alert
  /-- The requests issued so far, oldest first. -/
  requests : List Request

/-- How a method call ends: normally, or by raising an error. -/
abbrev Completion := Except JSError Unit

/-! ## Methods -/

/-- The method `showAlert(message, type)`: one more notification on the page. -/
def showAlert (s : State) (message type : String) : State :=
  { s with alerts := s.alerts ++ [{ message := message, type := type }] }

/-- The query parameters `loadContent(type)` sets on its URL. -/
def loadContentQuery (s : State) (type : Kind) : List (String × String) :=
  [("page", toString s.currentPage), ("per_page", toString s.perPage)]
  ++ (if s.searchTerm ≠ "" then [("search", s.searchTerm)] else [])
  ++ (if type = .posts then
        match s.postsSubdeadditFilter with
        | some subdeadditFilter =>
            if subdeadditFilter ≠ "" then [("subdeaddit", subdeadditFilter)] else []
        | none => []
      else [])

/-- The method `loadContent(type)` up to its first `await`: builds the URL and
issues the request with `fetch(url)`. -/
def loadContent (s : State) (type : Kind) : State :=
  { s with requests := s.requests ++
      [{ method := "GET", path := "/admin/api/" ++ type.name,
         query := loadContentQuery s type, body := none }] }

/-- The listener `setupEventListeners` registers for `input` on the search box
of `type`, run for a target whose value is `value`. -/
def onSearchInput (s : State) (type : Kind) (value : String) : State :=
  loadContent { s with searchTerm := value, currentPage := 1 } type

/-- The method `switchTab(tabId)`. -/
def switchTab (s : State) (tabId : Kind) : State :=
  let s1 : State :=
    { s with currentTab := tabId, currentPage := 1, selectedItems := [], searchTerm := "" }
  let s2 : State := { s1 with searchInput := Function.update s1.searchInput tabId "" }
  loadContent s2 tabId

/-- The method `renderPagination(type, data)`: empties the container
`${type}Pagination`, then appends the links. -/
def renderPagination (s : State) (type : Kind) (data : PageData) : State :=
  { s with pagination := Function.update s.pagination type (paginationLinks data) }

/-- The methods `renderUsers(data)`, `renderSubdeaddits(data)`,
`renderPosts(data)` and `renderComments(data)`, which differ in the type only:
the `tbody` of the type is emptied first; then `data.<type>.forEach` appends one
row per record, with an unchecked checkbox carrying the identifier, or raises a
`TypeError` when `data.<type>` is not there. -/
def renderItems (s : State) (type : Kind) (data : ListData) : Completion × State :=
  let s1 : State := { s with rows := Function.update s.rows type [] }
  match data.items type with
  | none => (.error .typeError, s1)
  | some items =>
    (.ok (),
     { s1 with
       rows := Function.update s1.rows type
         (items.map (fun item => { dataId := item.id, checked := false })) })

/-- The method `renderUsers(data)`. -/
def renderUsers (s : State) (data : ListData) : Completion × State :=
  renderItems s .users data

/-- The method `renderSubdeaddits(data)`. -/
def renderSubdeaddits (s : State) (data : ListData) : Completion × State :=
  renderItems s .subdeaddits data

/-- The method `renderPosts(data)`. -/
def renderPosts (s : State) (data : ListData) : Completion × State :=
  renderItems s .posts data

/-- The method `renderComments(data)`. -/
def renderComments (s : State) (data : ListData) : Completion × State :=
  renderItems s .comments data

/-- The method `loadContent(type)` from its first `await` on, for the outcome
`fetched` of the request (`none`: `fetch` is rejected).  Whatever is raised
inside the `try` block ends in `showAlert('Error loading content', 'danger')`;
`response.status` is not read. -/
def loadContentOnResponse (s : State) (type : Kind)
    (fetched : Option (Response ListData)) : State :=
  match fetched with
  | none => showAlert s "Error loading content" "danger"
  | some response =>
    match response.json with
    | none => showAlert s "Error loading content" "danger"
    | some data =>
      let rendered :=
        match type with
        | .users => renderUsers s data
        | .subdeaddits => renderSubdeaddits s data
        | .posts => renderPosts s data
        | .comments => renderComments s data
      match rendered with
      | (.error _, s1) => showAlert s1 "Error loading content" "danger"
      | (.ok _, s1) =>
        renderPagination s1 type { current_page := data.current_page, pages := data.pages }

/-- The method `goToPage(page)`. -/
def goToPage (s : State) (page : Int) : State :=
  loadContent { s with currentPage := page } s.currentTab

/-- The listener `setupItemCheckboxes` registers for `change` on a row checkbox,
run for a target whose `data-id` is `id` and whose `checked` property is `checked`. -/
def itemCheckboxChange (s : State) (id : String) (checked : Bool) : State :=
  if checked then
    { s with selectedItems := s.selectedItems.add id }
  else
    { s with
      selectedItems := s.selectedItems.delete id
      selectAllCheckbox := Function.update s.selectAllCheckbox s.currentTab false }

/-- The user toggles the checkbox of row `i` of the table of `type` to `checked`:
the browser updates the property, then the `change` listener runs. -/
def toggleItemCheckbox (s : State) (type : Kind) (i : Nat) (checked : Bool) : State :=
  match (s.rows type)[i]? with
  | none => s
  | some row =>
    itemCheckboxChange
      { s with rows := Function.update s.rows type
                 ((s.rows type).set i { row with checked := checked }) }
      row.dataId checked

/-- The body of the `forEach` of `selectAll`, run over the checkboxes of one
table: each checkbox gets `checked`, its identifier is added to or deleted from
the selection. -/
def selectAllRows (checked : Bool) : List Row → IdSet → List Row × IdSet
  | [], selectedItems => ([], selectedItems)
  | row :: rest, selectedItems =>
    let selectedItems1 :=
      if checked then selectedItems.add row.dataId else selectedItems.delete row.dataId
    let done := selectAllRows checked rest selectedItems1
    ({ row with checked := checked } :: done.1, done.2)

/-- The method `selectAll(type, checked)`.  `document.querySelectorAll('.item-checkbox')`
yields the row checkboxes of the whole document, here the four tables in the
order users, subdeaddits, posts, comments; `type` is not used. -/
def selectAll (s : State) (_type : Kind) (checked : Bool) : State :=
  let u := selectAllRows checked (s.rows .users) s.selectedItems
  let d := selectAllRows checked (s.rows .subdeaddits) u.2
  let p := selectAllRows checked (s.rows .posts) d.2
  let c := selectAllRows checked (s.rows .comments) p.2
  { s with
    selectedItems := c.2
    rows := fun k =>
      match k with
      | .users => u.1
      | .subdeaddits => d.1
      | .posts => p.1
      | .comments => c.1 }

/-- The impact text `showDeleteConfirmation` writes for a single deletion. -/
def impactText : DeleteType → Option String
  | .user => some "This will also delete all posts and comments by this user."
  | .subdeaddit => some "This will also delete all posts and comments in this subdeaddit."
  | .post => some "This will also delete all comments on this post."
  | .comment => some "This will also delete all replies to this comment."
  | .bulk _ => none

/-- The method `showDeleteConfirmation(type, id, message)`. -/
def showDeleteConfirmation (s : State) (type : DeleteType) (id : DeleteId)
    (message : String) : State :=
  let s1 : State :=
    { s with pendingDelete := some { type := type, id := id },
             deleteConfirmMessage := message }
  let s2 : State :=
    match impactText type with
    | some t => { s1 with deleteImpactWarning := true, deleteImpactText := t }
    | none => { s1 with deleteImpactWarning := false }
  { s2 with deleteConfirmModal := true }

/-- The method `bulkDelete(type)`. -/
def bulkDelete (s : State) (type : Kind) : State :=
  if s.selectedItems.length = 0 then
    showAlert s "No items selected" "warning"
  else
    let count := s.selectedItems.length
    let message := "Are you sure you want to delete " ++ toString count ++ " "
      ++ type.name ++ "?"
    showDeleteConfirmation s (.bulk type) (.many s.selectedItems) message

/-- The key of the identifier list in the body of a bulk-delete request. -/
def bodyKey (bulkType : Kind) : String :=
  if bulkType = .users then "usernames"
  else if bulkType = .subdeaddits then "names"
  else if bulkType = .posts then "post_ids"
  else "comment_ids"

/-- The text `${id}` of an identifier in a URL (an array is joined with commas). -/
def DeleteId.toText : DeleteId → String
  | .one id => id
  | .many ids => ",".intercalate ids

/-- The method `executeDelete()` up to its first `await`.  The destructuring
`const { type, id } = this.pendingDelete` stands before the `try` block: with
`this.pendingDelete` undefined it raises a `TypeError` that nothing catches.
Otherwise the delete request is issued. -/
def executeDelete (s : State) : Completion × State :=
  match s.pendingDelete with
  | none => (.error .typeError, s)
  | some { type := type, id := id } =>
    match type with
    | .bulk bulkType =>
      (.ok (), { s with requests := s.requests ++
        [{ method := "POST", path := "/admin/api/" ++ bulkType.name ++ "/bulk-delete",
           query := [], body := some (bodyKey bulkType, id) }] })
    | .user =>
      (.ok (), { s with requests := s.requests ++
        [{ method := "DELETE", path := "/admin/api/users/" ++ id.toText,
           query := [], body := none }] })
    | .subdeaddit =>
      (.ok (), { s with requests := s.requests ++
        [{ method := "DELETE", path := "/admin/api/subdeaddits/" ++ id.toText,
           query := [], body := none }] })
    | .post =>
      (.ok (), { s with requests := s.requests ++
        [{ method := "DELETE", path := "/admin/api/posts/" ++ id.toText,
           query := [], body := none }] })
    | .comment =>
      (.ok (), { s with requests := s.requests ++
        [{ method := "DELETE", path := "/admin/api/comments/" ++ id.toText,
           query := [], body := none }] })

/-- The parsed body `result` of the answer to a delete request: whether
`result.success` holds, the entries of `result.deleted` (kind and count, in
order) if there is such an object, and the text `result.error` contributes to a
message (`undefined` when the body has none). -/
structure DeleteResult where
  success : Bool
  deleted : Option (List (String × Int))
  error : String
  deriving DecidableEq, Repr

/-- The success message built from `result.deleted`:
`Object.entries(deleted).map(([k,v]) => v + ' ' + k).join(', ')` after `Deleted: `. -/
def deletedMessage (deleted : List (String × Int)) : String :=
  "Deleted: " ++ ", ".intercalate (deleted.map (fun kv => toString kv.2 ++ " " ++ kv.1))

/-- The method `executeDelete()` from its first `await` on, for the outcome
`fetched` of the delete request (`none`: `fetch` is rejected).  On
`result.success` the confirmation modal is hidden (its instance exists, since
the call that stored the pending deletion created it), the selection is
cleared, `loadContent(this.currentTab)` issues the reload, and the success
message is shown; otherwise the error of the answer is shown.  Whatever is
raised ends in `showAlert('Error deleting content', 'danger')`. -/
def executeDeleteOnResponse (s : State) (fetched : Option (Response DeleteResult)) : State :=
  match fetched with
  | none => showAlert s "Error deleting content" "danger"
  | some response =>
    match response.json with
    | none => showAlert s "Error deleting content" "danger"
    | some result =>
      if result.success then
        let s1 : State := { s with deleteConfirmModal := false }
        let s2 : State := { s1 with selectedItems := [] }
        let s3 : State := loadContent s2 s2.currentTab
        let message :=
          match result.deleted with
          | some deleted => deletedMessage deleted
          | none => "Deleted successfully"
        showAlert s3 message "success"
      else
        showAlert s ("Error deleting: " ++ result.error) "danger"

/-- The request an edit method issues: users and subdeaddits are searched by the
identifier with `per_page=1`, posts and comments are fetched with `per_page=1000`. -/
def editRequest (type : Kind) (id : String) : Request :=
  match type with
  | .users =>
    { method := "GET", path := "/admin/api/users",
      query := [("search", id), ("per_page", "1")], body := none }
  | .subdeaddits =>
    { method := "GET", path := "/admin/api/subdeaddits",
      query := [("search", id), ("per_page", "1")], body := none }
  | .posts =>
    { method := "GET", path := "/admin/api/posts",
      query := [("per_page", "1000")], body := none }
  | .comments =>
    { method := "GET", path := "/admin/api/comments",
      query := [("per_page", "1000")], body := none }

/-- The method `editUser(username)` up to its first `await`. -/
def editUser (s : State) (username : String) : State :=
  { s with requests := s.requests ++ [editRequest .users username] }

/-- The method `editSubdeaddit(name)` up to its first `await`. -/
def editSubdeaddit (s : State) (name : String) : State :=
  { s with requests := s.requests ++ [editRequest .subdeaddits name] }

/-- The method `editPost(id)` up to its first `await`. -/
def editPost (s : State) (id : String) : State :=
  { s with requests := s.requests ++ [editRequest .posts id] }

/-- The method `editComment(id)` up to its first `await`. -/
def editComment (s : State) (id : String) : State :=
  { s with requests := s.requests ++ [editRequest .comments id] }

/-- The word for a type in the alert of its edit method. -/
def editAlertWord : Kind → String
  | .users => "user"
  | .subdeaddits => "subdeaddit"
  | .posts => "post"
  | .comments => "comment"

/-- The methods `editUser`, `editSubdeaddit`, `editPost` and `editComment` from
their first `await` on, for the outcome `fetched` of the request.  The record is
looked up with `data.<type>.find(x => x.<identifier> === id)`; `if (!x) return;`
ends the method when there is none; otherwise the form is filled and the modal
shown.  Whatever is raised ends in `showAlert('Error loading <type> data', 'danger')`. -/
def editOnResponse (s : State) (type : Kind) (id : String)
    (fetched : Option (Response ListData)) : State :=
  match fetched with
  | none => showAlert s ("Error loading " ++ editAlertWord type ++ " data") "danger"
  | some response =>
    match response.json with
    | none => showAlert s ("Error loading " ++ editAlertWord type ++ " data") "danger"
    | some data =>
      match data.items type with
      | none => showAlert s ("Error loading " ++ editAlertWord type ++ " data") "danger"
      | some items =>
        match items.find? (fun item => item.id == id) with
        | none => s
        | some item =>
          { s with editForm := Function.update s.editForm type (some (id, item)),
                   editModal := Function.update s.editModal type true }

/-- The method `loadSubdeadditsFilter()` up to its first `await`. -/
def loadSubdeadditsFilter (s : State) : State :=
  { s with requests := s.requests ++
      [{ method := "GET", path := "/admin/api/subdeaddits",
         query := [("per_page", "1000")], body := none }] }

/-- The controller right after `new ContentManager()` on a page `page`: the
constructor sets its five fields (`pendingDelete` is not among them) and calls
`init()`, which loads the users list and the subdeaddit filter. -/
def new (page : State) : State :=
  let s : State :=
    { page with currentTab := .users, currentPage := 1, searchTerm := "", perPage := 25,
                selectedItems := [], pendingDelete := none }
  loadSubdeadditsFilter (loadContent s .users)

/-- A page before the script has run: empty tables, nothing checked, no
notification, no request. -/
def emptyPage : State :=
  { currentTab := .users, currentPage := 1, searchTerm := "", perPage := 25,
    selectedItems := [], pendingDelete := none,
    rows := fun _ => [], selectAllCheckbox := fun _ => false,
    searchInput := fun _ => "", postsSubdeadditFilter := some "",
    pagination := fun _ => [], deleteConfirmMessage := "",
    deleteImpactWarning := false, deleteImpactText := "", deleteConfirmModal := false,
    editForm := fun _ => none, editModal := fun _ => false,
    alerts := [], requests := [] }

/-- A page on which the posts table still shows post 7 and the comments table
shows comment 12, the comments tab being the current one; nothing is selected. -/
def postsAndCommentsPage : State :=
  { emptyPage with
    currentTab := .comments
    rows := fun k =>
      match k with
      | .posts => [{ dataId := "7", checked := false }]
      | .comments => [{ dataId := "12", checked := false }]
      | _ => [] }

/-- A users page, on page 3 of the list, whose only row `alice` is checked and
selected. -/
def aliceSelectedPage : State :=
  { emptyPage with
    currentPage := 3
    selectedItems := ["alice"]
    rows := fun k =>
      match k with
      | .users => [{ dataId := "alice", checked := true }]
      | _ => [] }

/-- The comments tab with the comments 3, 5 and 8 selected. -/
def commentsSelectedPage : State :=
  { emptyPage with currentTab := .comments, selectedItems := ["3", "5", "8"] }

/-- A list body whose only record, under every type, has the identifier `id`:
one page of one record. -/
def singleRecordData (id : String) : ListData :=
  { items := fun _ => some [{ id := id, fields := [] }], current_page := 1, pages := 1 }

/-- A JSON body without any item array, such as an error object. -/
def noItemsData : ListData :=
  { items := fun _ => none, current_page := 1, pages := 1 }

/-! ## Pagination -/

/-- The loop emits nothing once the loop variable exceeds `endPage`. -/
theorem pageNumberLoop_of_gt (c e i : Int) (h : e < i) : pageNumberLoop c e i = [] := by
  rw [pageNumberLoop]; simp [not_le.mpr h]

/-- One iteration of the loop. -/
theorem pageNumberLoop_of_le (c e i : Int) (h : i ≤ e) :
    pageNumberLoop c e i =
      { active := decide (i = c), target := i, text := .page i }
        :: pageNumberLoop c e (i + 1) := by
  rw [pageNumberLoop]; simp [h]

/-- What the loop entered at `i` emits: numbered links only, each for its own
page and active exactly at the current page; their pages are increasing and are
the integers from `i` to `endPage`; the active ones are the link of the current
page if it lies in that range. -/
theorem pageNumberLoop_spec (c e : Int) (m : Nat) :
    ∀ i : Int, (e + 1 - i).toNat = m →
      (∀ l ∈ pageNumberLoop c e i,
          l.isNumbered = true ∧ l.text = .page l.target ∧ (l.active = true ↔ l.target = c)) ∧
      ((pageNumberLoop c e i).map PageLink.target).Pairwise (fun a b => a < b) ∧
      (∀ j : Int, j ∈ (pageNumberLoop c e i).map PageLink.target ↔ i ≤ j ∧ j ≤ e) ∧
      (pageNumberLoop c e i).filter (fun l => l.active) =
        if i ≤ c ∧ c ≤ e then [{ active := true, target := c, text := .page c }] else [] := by
  induction m with
  | zero =>
    intro i hi
    have h : e < i := by omega
    rw [pageNumberLoop_of_gt c e i h]
    refine ⟨by simp, by simp, ?_, ?_⟩
    · intro j; simp; omega
    · have : ¬ (i ≤ c ∧ c ≤ e) := by omega
      simp [this]
  | succ m ih =>
    intro i hi
    have h : i ≤ e := by omega
    obtain ⟨h1, h2, h3, h4⟩ := ih (i + 1) (by omega)
    rw [pageNumberLoop_of_le c e i h]
    refine ⟨?_, ?_, ?_, ?_⟩
    · intro l hl
      rcases List.mem_cons.mp hl with rfl | hl
      · simp [PageLink.isNumbered]
      · exact h1 l hl
    · simp only [List.map_cons, List.pairwise_cons]
      refine ⟨?_, h2⟩
      intro j hj
      have := (h3 j).mp hj
      omega
    · intro j
      simp only [List.map_cons, List.mem_cons, h3 j]
      omega
    · by_cases hc : i = c
      · subst hc
        have : ¬ (i + 1 ≤ i ∧ i ≤ e) := by omega
        simp [List.filter_cons, h4, this, h]
      · have hiff : (i + 1 ≤ c ∧ c ≤ e) ↔ (i ≤ c ∧ c ≤ e) := by omega
        simp [List.filter_cons, hc, h4, hiff]

/-- For more than one page, the numbered links of the container are the links of
the loop over the window. -/
theorem numberedLinks_paginationLinks (p n : Int) (hn : 1 < n) :
    numberedLinks (paginationLinks ⟨p, n⟩) =
      pageNumberLoop p (min n (p + 2)) (max 1 (p - 2)) := by
  have hloop := (pageNumberLoop_spec p (min n (p + 2))
    ((min n (p + 2)) + 1 - (max 1 (p - 2))).toNat (max 1 (p - 2)) rfl).1
  have hfil : (pageNumberLoop p (min n (p + 2)) (max 1 (p - 2))).filter PageLink.isNumbered
      = pageNumberLoop p (min n (p + 2)) (max 1 (p - 2)) :=
    List.filter_eq_self.mpr (fun l hl => (hloop l hl).1)
  unfold numberedLinks paginationLinks
  simp only [not_le.mpr hn, if_false, List.filter_append, hfil]
  split <;> split <;> simp [PageLink.isNumbered]

/-- C1 (as stated, refuted): for `currentPage = 1`, `totalPages = 1` the window
`[max(1,p-2), min(n,p+2)]` is the page 1, yet no numbered link is emitted and no
link is active; for `currentPage = 0`, `totalPages = 2` the window pages 1 and 2
are emitted but none of them is active. -/
theorem renderPagination_window_counterexample :
    ¬ ((∀ i : Int,
          i ∈ (numberedLinks ((renderPagination emptyPage .users ⟨1, 1⟩).pagination .users)).map
                PageLink.target
            ↔ max 1 (1 - 2) ≤ i ∧ i ≤ min 1 (1 + 2)) ∧
        ((numberedLinks ((renderPagination emptyPage .users ⟨1, 1⟩).pagination .users)).filter
            (fun l => l.active)).map PageLink.target = [1]) ∧
    ¬ ((∀ i : Int,
          i ∈ (numberedLinks ((renderPagination emptyPage .users ⟨0, 2⟩).pagination .users)).map
                PageLink.target
            ↔ max 1 (0 - 2) ≤ i ∧ i ≤ min 2 (0 + 2)) ∧
        ((numberedLinks ((renderPagination emptyPage .users ⟨0, 2⟩).pagination .users)).filter
            (fun l => l.active)).map PageLink.target = [0]) := by
  constructor
  · rintro ⟨-, h⟩
    simp [renderPagination, paginationLinks, numberedLinks] at h
  · rintro ⟨-, h⟩
    simp [renderPagination, paginationLinks, numberedLinks, pageNumberLoop,
      PageLink.isNumbered] at h

/-- C1 (amended): when `totalPages > 1`, the numbered links that
`renderPagination` leaves in the container are exactly the pages of the window
`[max(1,p-2), min(n,p+2)]` in increasing order, each showing its own page number
and marked active exactly when it is page `p`; so exactly one numbered link, the
one for `p`, is active when `1 ≤ p ≤ n`, and none is when `p` lies outside. -/
theorem renderPagination_window (s : State) (type : Kind) (p n : Int) (hn : 1 < n) :
    ((numberedLinks ((renderPagination s type ⟨p, n⟩).pagination type)).map
        PageLink.target).Pairwise (fun a b => a < b) ∧
    (∀ i : Int,
      i ∈ (numberedLinks ((renderPagination s type ⟨p, n⟩).pagination type)).map
            PageLink.target
        ↔ max 1 (p - 2) ≤ i ∧ i ≤ min n (p + 2)) ∧
    (∀ l ∈ numberedLinks ((renderPagination s type ⟨p, n⟩).pagination type),
      l.text = .page l.target ∧ (l.active = true ↔ l.target = p)) ∧
    (1 ≤ p → p ≤ n →
      (numberedLinks ((renderPagination s type ⟨p, n⟩).pagination type)).filter
          (fun l => l.active) = [{ active := true, target := p, text := .page p }]) ∧
    (p < 1 ∨ n < p →
      (numberedLinks ((renderPagination s type ⟨p, n⟩).pagination type)).filter
          (fun l => l.active) = []) := by
  have hspec := pageNumberLoop_spec p (min n (p + 2))
    ((min n (p + 2)) + 1 - (max 1 (p - 2))).toNat (max 1 (p - 2)) rfl
  obtain ⟨h1, h2, h3, h4⟩ := hspec
  simp only [renderPagination, Function.update_same, numberedLinks_paginationLinks p n hn]
  refine ⟨h2, h3, fun l hl => (h1 l hl).2, ?_, ?_⟩
  · intro hp1 hpn
    rw [h4, if_pos]
    omega
  · intro hp
    rw [h4, if_neg]
    omega

/-- C1 (amended), at `currentPage = 3`, `totalPages = 10`. -/
theorem renderPagination_window_witness :
    (1 : Int) < 10 ∧
    (numberedLinks ((renderPagination emptyPage .posts ⟨3, 10⟩).pagination .posts)).filter
        (fun l => l.active) = [{ active := true, target := 3, text := .page 3 }] :=
  ⟨by decide,
   (renderPagination_window emptyPage .posts 3 10 (by decide)).2.2.2.1 (by decide) (by decide)⟩

/-- C2: when `totalPages > 1`, the container holds a "previous" link to `p - 1`
if `p > 1` and none otherwise, then the numbered links, then a "next" link to
`p + 1` if `p < n` and none otherwise; for `p = 1`, `n = 2` it holds exactly
link 1 (active), link 2 and a "next" link to page 2. -/
theorem renderPagination_previous_next (s : State) (type : Kind) (p n : Int) (hn : 1 < n) :
    (renderPagination s type ⟨p, n⟩).pagination type =
      (if 1 < p then [{ active := false, target := p - 1, text := .previous }] else [])
      ++ numberedLinks ((renderPagination s type ⟨p, n⟩).pagination type)
      ++ (if p < n then [{ active := false, target := p + 1, text := .next }] else []) ∧
    ((∃ l ∈ (renderPagination s type ⟨p, n⟩).pagination type, l.text = .previous) ↔ 1 < p) ∧
    ((∃ l ∈ (renderPagination s type ⟨p, n⟩).pagination type, l.text = .next) ↔ p < n) ∧
    (renderPagination s type ⟨1, 2⟩).pagination type =
      [{ active := true, target := 1, text := .page 1 },
       { active := false, target := 2, text := .page 2 },
       { active := false, target := 2, text := .next }] := by
  have hloop := (pageNumberLoop_spec p (min n (p + 2))
    ((min n (p + 2)) + 1 - (max 1 (p - 2))).toNat (max 1 (p - 2)) rfl).1
  have hnum := numberedLinks_paginationLinks p n hn
  have hshape : paginationLinks ⟨p, n⟩ =
      (if 1 < p then [{ active := false, target := p - 1, text := .previous }] else [])
      ++ pageNumberLoop p (min n (p + 2)) (max 1 (p - 2))
      ++ (if p < n then [{ active := false, target := p + 1, text := .next }] else []) := by
    simp [paginationLinks, not_le.mpr hn]
  simp only [renderPagination, Function.update_same, hnum]
  refine ⟨hshape, ?_, ?_, ?_⟩
  · rw [hshape]
    constructor
    · rintro ⟨l, hl, ht⟩
      simp only [List.mem_append] at hl
      rcases hl with (hl | hl) | hl
      · by_contra hp
        simp [hp] at hl
      · have := (hloop l hl).2.1
        rw [ht] at this
        cases this
      · split at hl
        · simp at hl; subst hl; cases ht
        · simp at hl
    · intro hp
      exact ⟨{ active := false, target := p - 1, text := .previous }, by simp [hp], rfl⟩
  · rw [hshape]
    constructor
    · rintro ⟨l, hl, ht⟩
      simp only [List.mem_append] at hl
      rcases hl with (hl | hl) | hl
      · split at hl
        · simp at hl; subst hl; cases ht
        · simp at hl
      · have := (hloop l hl).2.1
        rw [ht] at this
        cases this
      · by_contra hp
        simp [hp] at hl
    · intro hp
      exact ⟨{ active := false, target := p + 1, text := .next }, by simp [hp], rfl⟩
  · simp [paginationLinks, pageNumberLoop]

/-- C2, at `currentPage = 2`, `totalPages = 3`: both a "previous" and a "next"
link are present. -/
theorem renderPagination_previous_next_witness :
    (1 : Int) < 3 ∧
    ((∃ l ∈ (renderPagination emptyPage .users ⟨2, 3⟩).pagination .users, l.text = .previous)
      ↔ (1 : Int) < 2) :=
  ⟨by decide, (renderPagination_previous_next emptyPage .users 2 3 (by decide)).2.1⟩

/-- C3: when `totalPages ≤ 1` the pagination container ends up empty, whatever
`currentPage` is and whatever the container held before: no "previous" link, no
numbered link, no "next" link. -/
theorem renderPagination_single_page (s : State) (type : Kind) (p n : Int) (hn : n ≤ 1) :
    (renderPagination s type ⟨p, n⟩).pagination type = [] := by
  simp [renderPagination, paginationLinks, hn]

/-- C3, at `currentPage = 1`, `totalPages = 1`. -/
theorem renderPagination_single_page_witness :
    (1 : Int) ≤ 1 ∧ (renderPagination emptyPage .comments ⟨1, 1⟩).pagination .comments = [] :=
  ⟨by decide, renderPagination_single_page emptyPage .comments 1 1 (by decide)⟩


/-! ## Truncation -/

/-- The code units of a repeated basic-plane character. -/
theorem utf16_replicate (k : Nat) (c : Char) (hc : c.toNat < 65536) :
    utf16 (String.mk (List.replicate k c)) = List.replicate k c.toNat := by
  induction k with
  | zero => rfl
  | succ k ih =>
    simp only [utf16] at ih
    simp [utf16, List.replicate_succ, utf16Char, hc, ih]

/-- The code units of an appended text. -/
theorem utf16_append (a b : String) : utf16 (a ++ b) = utf16 a ++ utf16 b := by
  simp [utf16]

/-- C4: `truncate` returns a text of at most `n` characters unchanged, returns
the first `n` characters followed by `...` for a longer text, and returns the
empty string for a missing or empty text, a character being a UTF-16 code unit,
the unit in which `text.length` counts and `substring` cuts; 120 times `a` at
100 gives 100 times `a` and `...`, and `short` at 100 is unchanged.  Three
emoji are six code units: at 4 they are cut to the first two emoji and `...`. -/
theorem truncate_spec (text : JSString) (n : Nat) :
    (text.length ≤ n → truncate (some text) n = text) ∧
    (n < text.length →
      truncate (some text) n = text.take n ++ utf16 "..." ∧
      (truncate (some text) n).take n = text.take n ∧
      (truncate (some text) n).drop n = [46, 46, 46]) ∧
    truncate none n = [] ∧
    truncate (some []) n = [] ∧
    truncate (some (utf16 (String.mk (List.replicate 120 'a')))) 100
      = utf16 (String.mk (List.replicate 100 'a') ++ "...") ∧
    truncate (some (utf16 "short")) 100 = utf16 "short" ∧
    truncate (some (utf16 (String.mk (List.replicate 3 (Char.ofNat 128512))))) 4
      = utf16 (String.mk (List.replicate 2 (Char.ofNat 128512)) ++ "...") := by
  refine ⟨?_, ?_, rfl, by simp [truncate], ?_, by decide, by decide⟩
  · intro h
    by_cases he : text = []
    · simp [truncate, he]
    · simp [truncate, he, not_lt.mpr h]
  · intro h
    have he : text ≠ [] := by
      intro he
      subst he
      simp at h
    have ht : truncate (some text) n = text.take n ++ utf16 "..." := by
      simp [truncate, he, h]
    have hlen : (text.take n).length = n := by
      rw [List.length_take]; omega
    refine ⟨ht, ?_, ?_⟩
    · rw [ht, List.take_append_of_le_length (by omega), List.take_take]
      simp
    · rw [ht, List.drop_append_of_le_length (by omega), List.drop_eq_nil_of_le (by omega)]
      decide
  · have ha : ('a' : Char).toNat < 65536 := by decide
    rw [utf16_append, utf16_replicate 120 'a' ha, utf16_replicate 100 'a' ha]
    have hne : List.replicate 120 ('a' : Char).toNat ≠ [] := by
      intro h
      have := congrArg List.length h
      simp at this
    simp [truncate, hne, List.take_replicate]

/-- C4, at the text `abcdef` and the limit 4. -/
theorem truncate_spec_witness :
    4 < (utf16 "abcdef").length ∧ truncate (some (utf16 "abcdef")) 4 = utf16 "abcd..." :=
  ⟨by decide, by
    have h := ((truncate_spec (utf16 "abcdef") 4).2.1 (by decide)).1
    rw [h]; decide⟩


/-! ## Deletion -/

/-- C5: with an empty selection `bulkDelete` only shows the warning
`No items selected`: the request log is unchanged (no network request), no
pending deletion is stored, the confirmation modal is not opened, and apart
from the one new notification the state is the prior state. -/
theorem bulkDelete_empty_selection (s : State) (type : Kind) (h : s.selectedItems = []) :
    (bulkDelete s type).requests = s.requests ∧
    (bulkDelete s type).alerts
      = s.alerts ++ [{ message := "No items selected", type := "warning" }] ∧
    (bulkDelete s type).pendingDelete = s.pendingDelete ∧
    (bulkDelete s type).deleteConfirmModal = s.deleteConfirmModal ∧
    bulkDelete s type
      = { s with alerts := s.alerts ++ [{ message := "No items selected", type := "warning" }] } := by
  simp [bulkDelete, showAlert, h]

/-- C5, on a freshly constructed controller for the comments list. -/
theorem bulkDelete_empty_selection_witness :
    (new emptyPage).selectedItems = [] ∧
    (bulkDelete (new emptyPage) .comments).requests = (new emptyPage).requests ∧
    (bulkDelete (new emptyPage) .comments).alerts
      = [{ message := "No items selected", type := "warning" }] ∧
    (bulkDelete (new emptyPage) .comments).pendingDelete = none ∧
    (bulkDelete (new emptyPage) .comments).deleteConfirmModal = false :=
  ⟨rfl,
   (bulkDelete_empty_selection (new emptyPage) .comments rfl).1,
   (bulkDelete_empty_selection (new emptyPage) .comments rfl).2.1,
   (bulkDelete_empty_selection (new emptyPage) .comments rfl).2.2.1,
   (bulkDelete_empty_selection (new emptyPage) .comments rfl).2.2.2.1⟩

/-- C6: after `switchTab(tab)` the current type is `tab`, the page is 1, the
selection is empty and the search term is empty; exactly one request is issued,
a `GET` of `/admin/api/<tab>` whose `page` parameter is 1 and which has no
`search` parameter. -/
theorem switchTab_resets (s : State) (tab : Kind) :
    (switchTab s tab).currentTab = tab ∧
    (switchTab s tab).currentPage = 1 ∧
    (switchTab s tab).selectedItems = [] ∧
    (switchTab s tab).searchTerm = "" ∧
    ∃ r : Request,
      (switchTab s tab).requests = s.requests ++ [r] ∧
      r.method = "GET" ∧
      r.path = "/admin/api/" ++ tab.name ∧
      r.query.lookup "page" = some "1" ∧
      r.query.lookup "search" = none ∧
      r.body = none := by
  refine ⟨rfl, rfl, rfl, rfl, _, rfl, rfl, rfl, ?_, ?_, rfl⟩
  · simp [loadContentQuery, List.lookup]
    rfl
  · simp only [loadContentQuery]
    cases tab <;> cases s.postsSubdeadditFilter <;> simp [List.lookup]

/-- C6, switching from a state with a selection, a search term and page 4 to the
posts tab. -/
theorem switchTab_resets_witness :
    (switchTab { emptyPage with currentPage := 4, searchTerm := "cat",
                                selectedItems := ["alice"] } .posts).requests
      = [{ method := "GET", path := "/admin/api/posts",
           query := [("page", "1"), ("per_page", "25")], body := none }] ∧
    (switchTab { emptyPage with currentPage := 4, searchTerm := "cat",
                                selectedItems := ["alice"] } .posts).selectedItems = [] :=
  ⟨by decide,
   (switchTab_resets { emptyPage with currentPage := 4, searchTerm := "cat",
                                      selectedItems := ["alice"] } .posts).2.2.1⟩

/-- C7 (as stated, refuted): on a freshly constructed controller, where
`pendingDelete` has never been set, `executeDelete` does not complete normally:
it raises a `TypeError`. -/
theorem executeDelete_absent_counterexample :
    (new emptyPage).pendingDelete = none ∧
    (executeDelete (new emptyPage)).1 ≠ .ok () ∧
    (executeDelete (new emptyPage)).1 = .error .typeError := by
  refine ⟨rfl, ?_, rfl⟩
  intro h
  cases h

/-- C7 (amended): in every state in which `pendingDelete` has not been set,
`executeDelete` issues no request, shows no notification and leaves the state
unchanged, but it ends by raising a `TypeError`. -/
theorem executeDelete_absent (s : State) (h : s.pendingDelete = none) :
    executeDelete s = (.error .typeError, s) ∧
    (executeDelete s).2.requests = s.requests ∧
    (executeDelete s).2.alerts = s.alerts := by
  simp [executeDelete, h]

/-- C7 (amended), on a freshly constructed controller. -/
theorem executeDelete_absent_witness :
    (new emptyPage).pendingDelete = none ∧
    executeDelete (new emptyPage) = (.error .typeError, new emptyPage) :=
  ⟨rfl, (executeDelete_absent (new emptyPage) rfl).1⟩


/-! ## Selection -/

/-- Membership after `set.add(id)`. -/
theorem IdSet.mem_add (set : IdSet) (id x : String) :
    x ∈ set.add id ↔ x ∈ set ∨ x = id := by
  unfold IdSet.add
  split
  · constructor
    · exact Or.inl
    · rintro (h | rfl)
      · exact h
      · assumption
  · simp

/-- Membership after `set.delete(id)`. -/
theorem IdSet.mem_delete (set : IdSet) (id x : String) :
    x ∈ set.delete id ↔ x ∈ set ∧ x ≠ id := by
  simp [IdSet.delete]

/-- The `forEach` of `selectAll` keeps the rows of a table and gives each the new `checked`. -/
theorem selectAllRows_rows (checked : Bool) (rows : List Row) (selectedItems : IdSet) :
    (selectAllRows checked rows selectedItems).1
      = rows.map (fun row => { row with checked := checked }) := by
  induction rows generalizing selectedItems with
  | nil => rfl
  | cons row rest ih => simp [selectAllRows, ih]

/-- Checking all rows of a table adds exactly their identifiers. -/
theorem mem_selectAllRows_true (rows : List Row) (selectedItems : IdSet) (x : String) :
    x ∈ (selectAllRows true rows selectedItems).2
      ↔ x ∈ selectedItems ∨ x ∈ rows.map Row.dataId := by
  induction rows generalizing selectedItems with
  | nil => simp [selectAllRows]
  | cons row rest ih =>
    simp only [selectAllRows, if_true, ih, IdSet.mem_add, List.map_cons, List.mem_cons]
    tauto

/-- Unchecking all rows of a table removes exactly their identifiers. -/
theorem mem_selectAllRows_false (rows : List Row) (selectedItems : IdSet) (x : String) :
    x ∈ (selectAllRows false rows selectedItems).2
      ↔ x ∈ selectedItems ∧ x ∉ rows.map Row.dataId := by
  induction rows generalizing selectedItems with
  | nil => simp [selectAllRows]
  | cons row rest ih =>
    simp only [selectAllRows, Bool.false_eq_true, if_false, ih, IdSet.mem_delete,
      List.map_cons, List.mem_cons, not_or]
    tauto

/-- The rows of every table after `selectAll`. -/
theorem selectAll_rows (s : State) (type : Kind) (checked : Bool) (k : Kind) :
    (selectAll s type checked).rows k
      = (s.rows k).map (fun row => { row with checked := checked }) := by
  cases k <;> simp [selectAll, selectAllRows_rows]

/-- The selection after `selectAll(type, true)`: the prior selection and the
identifiers of the rows of all four tables. -/
theorem mem_selectAll_true (s : State) (type : Kind) (x : String) :
    x ∈ (selectAll s type true).selectedItems
      ↔ x ∈ s.selectedItems ∨ ∃ k, x ∈ (s.rows k).map Row.dataId := by
  simp only [selectAll, mem_selectAllRows_true]
  constructor
  · rintro ((((h | h) | h) | h) | h)
    · exact Or.inl h
    · exact Or.inr ⟨.users, h⟩
    · exact Or.inr ⟨.subdeaddits, h⟩
    · exact Or.inr ⟨.posts, h⟩
    · exact Or.inr ⟨.comments, h⟩
  · rintro (h | ⟨k, h⟩)
    · exact Or.inl (Or.inl (Or.inl (Or.inl h)))
    · cases k
      · exact Or.inl (Or.inl (Or.inl (Or.inr h)))
      · exact Or.inl (Or.inl (Or.inr h))
      · exact Or.inl (Or.inr h)
      · exact Or.inr h

/-- The selection after `selectAll(type, false)`: the prior selection without the
identifiers of the rows of all four tables. -/
theorem mem_selectAll_false (s : State) (type : Kind) (x : String) :
    x ∈ (selectAll s type false).selectedItems
      ↔ x ∈ s.selectedItems ∧ ∀ k, x ∉ (s.rows k).map Row.dataId := by
  simp only [selectAll, mem_selectAllRows_false]
  constructor
  · rintro ⟨⟨⟨⟨h, hu⟩, hd⟩, hp⟩, hc⟩
    exact ⟨h, fun k => by cases k <;> assumption⟩
  · rintro ⟨h, hk⟩
    exact ⟨⟨⟨⟨h, hk .users⟩, hk .subdeaddits⟩, hk .posts⟩, hk .comments⟩

/-- C8 (fails on the code): with post 7 still rendered in the posts table and
comment 12 in the comments table, `selectAll('comments', true)` selects both
identifiers, and the bulk delete of comments that follows captures and sends
`comment_ids: ["7", "12"]`, although no comments row has the identifier 7. -/
theorem selectAll_not_scoped :
    "7" ∉ (postsAndCommentsPage.rows .comments).map Row.dataId ∧
    (selectAll postsAndCommentsPage .comments true).selectedItems = ["7", "12"] ∧
    (bulkDelete (selectAll postsAndCommentsPage .comments true) .comments).pendingDelete
      = some { type := .bulk .comments, id := .many ["7", "12"] } ∧
    (executeDelete
        (bulkDelete (selectAll postsAndCommentsPage .comments true) .comments)).2.requests
      = [{ method := "POST", path := "/admin/api/comments/bulk-delete", query := [],
           body := some ("comment_ids", .many ["7", "12"]) }] := by
  refine ⟨by decide, by decide, by decide, by decide⟩

/-- C9: after `selectAll(type, true)` every rendered row is checked and its
identifier is selected; after `selectAll(type, false)` every rendered row is
unchecked and its identifier is not selected.  The rows themselves (their
number, order and identifiers) are the ones rendered before the call. -/
theorem selectAll_sets_every_row (s : State) (type : Kind) :
    (∀ k, ((selectAll s type true).rows k).map Row.dataId = (s.rows k).map Row.dataId) ∧
    (∀ k, ∀ row ∈ (selectAll s type true).rows k,
      row.checked = true ∧ row.dataId ∈ (selectAll s type true).selectedItems) ∧
    (∀ k, ((selectAll s type false).rows k).map Row.dataId = (s.rows k).map Row.dataId) ∧
    (∀ k, ∀ row ∈ (selectAll s type false).rows k,
      row.checked = false ∧ row.dataId ∉ (selectAll s type false).selectedItems) := by
  refine ⟨?_, ?_, ?_, ?_⟩
  · intro k
    simp [selectAll_rows, Function.comp_def]
  · intro k row hrow
    rw [selectAll_rows] at hrow
    obtain ⟨r, hr, rfl⟩ := List.mem_map.mp hrow
    refine ⟨rfl, ?_⟩
    rw [mem_selectAll_true]
    exact Or.inr ⟨k, List.mem_map.mpr ⟨r, hr, rfl⟩⟩
  · intro k
    simp [selectAll_rows, Function.comp_def]
  · intro k row hrow
    rw [selectAll_rows] at hrow
    obtain ⟨r, hr, rfl⟩ := List.mem_map.mp hrow
    refine ⟨rfl, ?_⟩
    rw [mem_selectAll_false]
    rintro ⟨-, h⟩
    exact h k (List.mem_map.mpr ⟨r, hr, rfl⟩)

/-- C9, on a page with one posts row and one comments row: the comments row is
checked and selected after `selectAll('comments', true)`. -/
theorem selectAll_sets_every_row_witness :
    ({ dataId := "12", checked := true } : Row).checked = true ∧
    "12" ∈ (selectAll postsAndCommentsPage .comments true).selectedItems :=
  (selectAll_sets_every_row postsAndCommentsPage .comments).2.1 .comments
    { dataId := "12", checked := true } (by decide)

/-- The row listener is idempotent: a checkbox that carries the listener more
than once (every render registers it anew on all checkboxes of the document)
ends in the same state as with one run. -/
theorem itemCheckboxChange_idem (s : State) (id : String) (checked : Bool) :
    itemCheckboxChange (itemCheckboxChange s id checked) id checked
      = itemCheckboxChange s id checked := by
  cases checked
  · simp [itemCheckboxChange, IdSet.delete]
  · have h : id ∈ s.selectedItems.add id := (IdSet.mem_add _ _ _).mpr (Or.inr rfl)
    simp only [itemCheckboxChange, if_true]
    congr 1
    simp only [IdSet.add] at h ⊢
    split
    · simp [*]
    · simp

/-- C10: checking a row adds its identifier to the selection and leaves every
"select all" checkbox as it was, also when the user thereby checks a row of a
table (so even when all rows are then checked); unchecking a row removes its
identifier, keeps the other identifiers, and unchecks the "select all" checkbox
of the current type, leaving those of the other types as they were. -/
theorem itemCheckboxChange_one_directional (s : State) (id : String) :
    (itemCheckboxChange s id true).selectedItems = s.selectedItems.add id ∧
    id ∈ (itemCheckboxChange s id true).selectedItems ∧
    (∀ x, x ∈ s.selectedItems → x ∈ (itemCheckboxChange s id true).selectedItems) ∧
    (itemCheckboxChange s id true).selectAllCheckbox = s.selectAllCheckbox ∧
    (∀ type i, (toggleItemCheckbox s type i true).selectAllCheckbox = s.selectAllCheckbox) ∧
    id ∉ (itemCheckboxChange s id false).selectedItems ∧
    (∀ x, x ≠ id →
      (x ∈ (itemCheckboxChange s id false).selectedItems ↔ x ∈ s.selectedItems)) ∧
    (itemCheckboxChange s id false).selectAllCheckbox s.currentTab = false ∧
    (∀ k, k ≠ s.currentTab →
      (itemCheckboxChange s id false).selectAllCheckbox k = s.selectAllCheckbox k) := by
  refine ⟨rfl, ?_, ?_, rfl, ?_, ?_, ?_, ?_, ?_⟩
  · simp [itemCheckboxChange, IdSet.mem_add]
  · intro x hx
    simp [itemCheckboxChange, IdSet.mem_add, hx]
  · intro type i
    unfold toggleItemCheckbox
    split <;> rfl
  · simp [itemCheckboxChange, IdSet.mem_delete]
  · intro x hx
    simp [itemCheckboxChange, IdSet.mem_delete, hx]
  · simp [itemCheckboxChange]
  · intro k hk
    simp [itemCheckboxChange, Function.update_noteq hk]

/-- C10, on a page whose comments table has the single row 12, unchecked, with
"select all" unchecked: once the user checks the row, every comments row is
checked and selected, and "select all" is still unchecked. -/
theorem itemCheckboxChange_one_directional_witness :
    (toggleItemCheckbox postsAndCommentsPage .comments 0 true).rows .comments
      = [{ dataId := "12", checked := true }] ∧
    (toggleItemCheckbox postsAndCommentsPage .comments 0 true).selectedItems = ["12"] ∧
    (toggleItemCheckbox postsAndCommentsPage .comments 0 true).selectAllCheckbox .comments
      = false :=
  ⟨by decide, by decide,
   congrFun ((itemCheckboxChange_one_directional postsAndCommentsPage "12").2.2.2.2.1
     .comments 0) .comments⟩


/-! ## Bulk deletion request -/

/-- C11 (as stated, refuted): the comments 3, 5 and 8 are selected, bulk delete
is requested and confirmed, and the server answers `success: true`.  The call
has then issued two requests, not one: the `POST` to
`/admin/api/comments/bulk-delete` and the `GET` that reloads the comments list. -/
theorem bulkDelete_then_executeDelete_counterexample :
    (executeDeleteOnResponse (executeDelete (bulkDelete commentsSelectedPage .comments)).2
        (some { status := 200,
                json := some { success := true, deleted := some [("comments", 3)],
                               error := "undefined" } })).requests
      = [{ method := "POST", path := "/admin/api/comments/bulk-delete", query := [],
           body := some ("comment_ids", .many ["3", "5", "8"]) },
         { method := "GET", path := "/admin/api/comments",
           query := [("page", "1"), ("per_page", "25")], body := none }] ∧
    (executeDeleteOnResponse (executeDelete (bulkDelete commentsSelectedPage .comments)).2
        (some { status := 200,
                json := some { success := true, deleted := some [("comments", 3)],
                               error := "undefined" } })).requests.length ≠ 1 ∧
    (executeDeleteOnResponse (executeDelete (bulkDelete commentsSelectedPage .comments)).2
        (some { status := 200,
                json := some { success := true, deleted := some [("comments", 3)],
                               error := "undefined" } })).alerts
      = [{ message := "Deleted: 3 comments", type := "success" }] := by
  refine ⟨by decide, by decide, by decide⟩

/-- C11 (amended): with a non-empty selection, `bulkDelete(k)` issues no request
and stores the selected identifiers as pending; `executeDelete` then issues
exactly one delete request, a `POST` to `/admin/api/<k>/bulk-delete` whose body
has the single field `usernames`, `names`, `post_ids` or `comment_ids` holding
the identifiers that were selected when `bulkDelete` was called, whatever else
changed in between.  It is the only request until the answer arrives.  On an
answer with `success` the same call issues one more request, the `GET` that
reloads the list of the current tab, and clears the selection; on any other
outcome it issues no further request. -/
theorem bulkDelete_then_executeDelete (s : State) (k : Kind) (h : s.selectedItems ≠ []) :
    (bulkDelete s k).requests = s.requests ∧
    (bulkDelete s k).pendingDelete
      = some { type := .bulk k, id := .many s.selectedItems } ∧
    (∀ s1 : State, s1.pendingDelete = (bulkDelete s k).pendingDelete →
      executeDelete s1 =
        (.ok (), { s1 with requests := s1.requests ++
          [{ method := "POST", path := "/admin/api/" ++ k.name ++ "/bulk-delete",
             query := [], body := some (bodyKey k, .many s.selectedItems) }] })) ∧
    (executeDelete (bulkDelete s k)).2.requests = s.requests ++
      [{ method := "POST", path := "/admin/api/" ++ k.name ++ "/bulk-delete",
         query := [], body := some (bodyKey k, .many s.selectedItems) }] ∧
    ("/admin/api/" ++ k.name ++ "/bulk-delete", bodyKey k) =
      (match k with
       | .users => ("/admin/api/users/bulk-delete", "usernames")
       | .subdeaddits => ("/admin/api/subdeaddits/bulk-delete", "names")
       | .posts => ("/admin/api/posts/bulk-delete", "post_ids")
       | .comments => ("/admin/api/comments/bulk-delete", "comment_ids")) ∧
    (∀ status result, result.success = true →
      (executeDeleteOnResponse (executeDelete (bulkDelete s k)).2
          (some { status := status, json := some result })).requests
        = s.requests ++
          [{ method := "POST", path := "/admin/api/" ++ k.name ++ "/bulk-delete",
             query := [], body := some (bodyKey k, .many s.selectedItems) },
           { method := "GET", path := "/admin/api/" ++ s.currentTab.name,
             query := loadContentQuery s s.currentTab, body := none }] ∧
      (executeDeleteOnResponse (executeDelete (bulkDelete s k)).2
          (some { status := status, json := some result })).selectedItems = []) ∧
    (∀ fetched : Option (Response DeleteResult),
      (∀ response result, fetched = some response → response.json = some result →
        result.success = false) →
      (executeDeleteOnResponse (executeDelete (bulkDelete s k)).2 fetched).requests
        = s.requests ++
          [{ method := "POST", path := "/admin/api/" ++ k.name ++ "/bulk-delete",
             query := [], body := some (bodyKey k, .many s.selectedItems) }]) := by
  have hlen : s.selectedItems.length ≠ 0 := by
    intro h0
    exact h (List.length_eq_zero.mp h0)
  have hpending : (bulkDelete s k).pendingDelete
      = some { type := .bulk k, id := .many s.selectedItems } := by
    simp [bulkDelete, hlen, showDeleteConfirmation, impactText]
  have hreq : (bulkDelete s k).requests = s.requests := by
    simp [bulkDelete, hlen, showDeleteConfirmation, impactText]
  have hexec : ∀ s1 : State, s1.pendingDelete = (bulkDelete s k).pendingDelete →
      executeDelete s1 =
        (.ok (), { s1 with requests := s1.requests ++
          [{ method := "POST", path := "/admin/api/" ++ k.name ++ "/bulk-delete",
             query := [], body := some (bodyKey k, .many s.selectedItems) }] }) := by
    intro s1 h1
    rw [hpending] at h1
    simp [executeDelete, h1]
  have hfields : (bulkDelete s k).currentTab = s.currentTab ∧
      (bulkDelete s k).currentPage = s.currentPage ∧
      (bulkDelete s k).perPage = s.perPage ∧
      (bulkDelete s k).searchTerm = s.searchTerm ∧
      (bulkDelete s k).postsSubdeadditFilter = s.postsSubdeadditFilter := by
    simp [bulkDelete, hlen, showDeleteConfirmation, impactText]
  obtain ⟨htab, hpage, hper, hterm, hfilter⟩ := hfields
  refine ⟨hreq, hpending, hexec, ?_, ?_, ?_, ?_⟩
  · simp [hexec (bulkDelete s k) rfl, hreq]
  · cases k <;> decide
  · intro status result hsuccess
    rw [hexec (bulkDelete s k) rfl]
    simp [executeDeleteOnResponse, hsuccess, loadContent, showAlert, loadContentQuery,
      hreq, htab, hpage, hper, hterm, hfilter]
  · intro fetched hfail
    rw [hexec (bulkDelete s k) rfl]
    rcases fetched with _ | ⟨status, _ | result⟩
    · simp [executeDeleteOnResponse, showAlert, hreq]
    · simp [executeDeleteOnResponse, showAlert, hreq]
    · have hf : result.success = false := hfail _ result rfl rfl
      simp [executeDeleteOnResponse, showAlert, hreq, hf]

/-- C11 (amended), for three selected comment identifiers. -/
theorem bulkDelete_then_executeDelete_witness :
    commentsSelectedPage.selectedItems ≠ [] ∧
    (executeDelete (bulkDelete commentsSelectedPage .comments)).2.requests
      = [{ method := "POST", path := "/admin/api/comments/bulk-delete", query := [],
           body := some ("comment_ids", .many ["3", "5", "8"]) }] :=
  ⟨by decide,
   (bulkDelete_then_executeDelete commentsSelectedPage .comments (by decide)).2.2.2.1⟩


/-! ## Loading a list -/

/-- C12 (as stated, refuted): the comments table shows comment 12; the reload
is answered with status 500 and a JSON body that has no `comments` array.  The
error notification is shown, but the old row is gone: the table is empty. -/
theorem loadContentOnResponse_counterexample :
    postsAndCommentsPage.rows .comments = [{ dataId := "12", checked := false }] ∧
    (loadContentOnResponse postsAndCommentsPage .comments
        (some { status := 500, json := some noItemsData })).alerts
      = [{ message := "Error loading content", type := "danger" }] ∧
    (loadContentOnResponse postsAndCommentsPage .comments
        (some { status := 500, json := some noItemsData })).rows .comments = [] ∧
    (loadContentOnResponse postsAndCommentsPage .comments
        (some { status := 500, json := some noItemsData })).rows .comments
      ≠ postsAndCommentsPage.rows .comments := by
  refine ⟨by decide, by decide, by decide, by decide⟩

/-- C12 (amended): when the request fails or the body is not JSON,
`loadContent` shows the error notification and changes nothing else, so the
rows stay as they were.  When the body is JSON without the item array of the
type, the error notification is shown and nothing is rendered, but the table of
the type has been emptied; the other tables and the pagination stay as they
were.  The HTTP status plays no part in any of this. -/
theorem loadContentOnResponse_failure (s : State) (type : Kind) :
    loadContentOnResponse s type none = showAlert s "Error loading content" "danger" ∧
    (∀ status,
      loadContentOnResponse s type (some { status := status, json := none })
        = showAlert s "Error loading content" "danger") ∧
    (showAlert s "Error loading content" "danger").rows = s.rows ∧
    (∀ status data, data.items type = none →
      loadContentOnResponse s type (some { status := status, json := some data })
        = showAlert { s with rows := Function.update s.rows type [] }
            "Error loading content" "danger") ∧
    (∀ status data, data.items type = none →
      (loadContentOnResponse s type (some { status := status, json := some data })).alerts
          = s.alerts ++ [{ message := "Error loading content", type := "danger" }] ∧
      (loadContentOnResponse s type (some { status := status, json := some data })).rows type
          = [] ∧
      (∀ k, k ≠ type →
        (loadContentOnResponse s type (some { status := status, json := some data })).rows k
          = s.rows k) ∧
      (loadContentOnResponse s type (some { status := status, json := some data })).pagination
          = s.pagination) ∧
    (∀ status1 status2 body,
      loadContentOnResponse s type (some { status := status1, json := body })
        = loadContentOnResponse s type (some { status := status2, json := body })) := by
  have hempty : ∀ status data, data.items type = none →
      loadContentOnResponse s type (some { status := status, json := some data })
        = showAlert { s with rows := Function.update s.rows type [] }
            "Error loading content" "danger" := by
    intro status data hd
    cases type <;>
      simp [loadContentOnResponse, renderUsers, renderSubdeaddits, renderPosts,
        renderComments, renderItems, hd]
  refine ⟨rfl, fun _ => rfl, rfl, hempty, ?_, fun _ _ _ => rfl⟩
  intro status data hd
  rw [hempty status data hd]
  refine ⟨rfl, ?_, ?_, rfl⟩
  · simp [showAlert]
  · intro k hk
    simp [showAlert, Function.update_noteq hk]

/-- C12 (amended), for the comments table showing comment 12 and a status 500
answer without a `comments` array. -/
theorem loadContentOnResponse_failure_witness :
    noItemsData.items .comments = none ∧
    loadContentOnResponse postsAndCommentsPage .comments
        (some { status := 500, json := some noItemsData })
      = showAlert
          { postsAndCommentsPage with
            rows := Function.update postsAndCommentsPage.rows .comments [] }
          "Error loading content" "danger" :=
  ⟨rfl, (loadContentOnResponse_failure postsAndCommentsPage .comments).2.2.2.1 500
    noItemsData rfl⟩

/-! ## Editing -/

/-- C13 (as stated, refuted): `editUser('al')` is answered with a page whose
only record is `alice`.  No notification is shown: the method returns with the
state as it was. -/
theorem editOnResponse_counterexample :
    (editOnResponse (editUser emptyPage "al") .users "al"
        (some { status := 200, json := some (singleRecordData "alice") })).alerts = [] ∧
    (editOnResponse (editUser emptyPage "al") .users "al"
        (some { status := 200, json := some (singleRecordData "alice") })).editModal .users
      = false ∧
    (editOnResponse (editUser emptyPage "al") .users "al"
        (some { status := 200, json := some (singleRecordData "alice") })).editForm .users
      = none := by
  refine ⟨by decide, by decide, by decide⟩

/-- C13 (amended): when the fetched page contains no record with the
identifier, the edit method neither fills nor opens the edit form, and it
returns silently: no notification is shown and the state is left as it was. -/
theorem editOnResponse_not_found (s : State) (type : Kind) (id : String) (status : Nat)
    (data : ListData) (items : List Item) (hitems : data.items type = some items)
    (habsent : ∀ item ∈ items, item.id ≠ id) :
    editOnResponse s type id (some { status := status, json := some data }) = s ∧
    (editOnResponse s type id (some { status := status, json := some data })).alerts
      = s.alerts ∧
    (editOnResponse s type id (some { status := status, json := some data })).editForm
      = s.editForm ∧
    (editOnResponse s type id (some { status := status, json := some data })).editModal
      = s.editModal := by
  have hfind : items.find? (fun item => item.id == id) = none := by
    rw [List.find?_eq_none]
    intro item hitem
    simpa using habsent item hitem
  have h : editOnResponse s type id (some { status := status, json := some data }) = s := by
    simp [editOnResponse, hitems, hfind]
  simp [h]

/-- C13 (amended), for `editUser('al')` answered with the record `alice`. -/
theorem editOnResponse_not_found_witness :
    (singleRecordData "alice").items .users = some [{ id := "alice", fields := [] }] ∧
    (∀ item ∈ [({ id := "alice", fields := [] } : Item)], item.id ≠ "al") ∧
    editOnResponse (editUser emptyPage "al") .users "al"
        (some { status := 200, json := some (singleRecordData "alice") })
      = editUser emptyPage "al" :=
  ⟨rfl, by decide,
   (editOnResponse_not_found (editUser emptyPage "al") .users "al" 200
      (singleRecordData "alice") [{ id := "alice", fields := [] }] rfl (by decide)).1⟩


/-- Rendering a well-formed list body: the rows of the type are replaced by one
unchecked row per record, no notification is shown, and the pagination of the
type is rebuilt. -/
theorem loadContentOnResponse_ok (s : State) (type : Kind) (status : Nat) (data : ListData)
    (items : List Item) (hitems : data.items type = some items) :
    loadContentOnResponse s type (some { status := status, json := some data })
      = renderPagination
          { s with rows := Function.update s.rows type
                     (items.map (fun item => { dataId := item.id, checked := false })) }
          type { current_page := data.current_page, pages := data.pages } := by
  cases type <;>
    simp [loadContentOnResponse, renderUsers, renderSubdeaddits, renderPosts,
      renderComments, renderItems, hitems]

/-- An edit method that finds the record fills the form with it and shows the
modal. -/
theorem editOnResponse_found (s : State) (type : Kind) (id : String) (status : Nat)
    (data : ListData) (items : List Item) (item : Item)
    (hitems : data.items type = some items)
    (hfound : items.find? (fun item => item.id == id) = some item) :
    editOnResponse s type id (some { status := status, json := some data })
      = { s with editForm := Function.update s.editForm type (some (id, item)),
                 editModal := Function.update s.editModal type true } := by
  simp [editOnResponse, hitems, hfound]

/-! ## Searching -/

/-- The search listener sets the term and the page and reloads; it leaves the
selection as it was. -/
theorem onSearchInput_fields (s : State) (type : Kind) (value : String) :
    (onSearchInput s type value).searchTerm = value ∧
    (onSearchInput s type value).currentPage = 1 ∧
    (onSearchInput s type value).selectedItems = s.selectedItems :=
  ⟨rfl, rfl, rfl⟩

/-- C14 (fails on the code): with `alice` selected, typing `bo` into the users
search box sets the term to `bo` and the page to 1 but leaves `alice` selected.
Once the answer, the single record `bob`, is rendered, no row is checked, yet
the bulk delete of users that follows still captures and sends `alice`. -/
theorem onSearchInput_keeps_selection :
    aliceSelectedPage.selectedItems = ["alice"] ∧
    (onSearchInput aliceSelectedPage .users "bo").searchTerm = "bo" ∧
    (onSearchInput aliceSelectedPage .users "bo").currentPage = 1 ∧
    (onSearchInput aliceSelectedPage .users "bo").selectedItems = ["alice"] ∧
    (onSearchInput aliceSelectedPage .users "bo").selectedItems ≠ [] ∧
    (loadContentOnResponse (onSearchInput aliceSelectedPage .users "bo") .users
        (some { status := 200, json := some (singleRecordData "bob") })).rows .users
      = [{ dataId := "bob", checked := false }] ∧
    (executeDelete (bulkDelete
        (loadContentOnResponse (onSearchInput aliceSelectedPage .users "bo") .users
          (some { status := 200, json := some (singleRecordData "bob") }))
        .users)).2.requests
      = [{ method := "GET", path := "/admin/api/users",
           query := [("page", "1"), ("per_page", "25"), ("search", "bo")], body := none },
         { method := "POST", path := "/admin/api/users/bulk-delete", query := [],
           body := some ("usernames", .many ["alice"]) }] := by
  refine ⟨by decide, by decide, by decide, by decide, by decide, by decide, by decide⟩

/-! ## Pagination targets -/

/-- The number of links the loop emits. -/
theorem pageNumberLoop_length (c e : Int) (m : Nat) :
    ∀ i : Int, (e + 1 - i).toNat = m → (pageNumberLoop c e i).length = m := by
  induction m with
  | zero =>
    intro i hi
    rw [pageNumberLoop_of_gt c e i (by omega)]
    rfl
  | succ m ih =>
    intro i hi
    rw [pageNumberLoop_of_le c e i (by omega), List.length_cons, ih (i + 1) (by omega)]

/-- For more than one page, the container holds the optional "previous" link,
the links of the loop over the window, and the optional "next" link. -/
theorem paginationLinks_shape (p n : Int) (hn : 1 < n) :
    paginationLinks ⟨p, n⟩ =
      (if 1 < p then [{ active := false, target := p - 1, text := .previous }] else [])
      ++ pageNumberLoop p (min n (p + 2)) (max 1 (p - 2))
      ++ (if p < n then [{ active := false, target := p + 1, text := .next }] else []) := by
  simp [paginationLinks, not_le.mpr hn]

/-- C15: when `1 ≤ p ≤ n` and `n ≥ 2`, every link `renderPagination` emits
targets a page from 1 to `n`, at most 5 of the links are numbered, the link for
page `p` is among the numbered ones, and `goToPage` called with the target of
any emitted link leaves `currentPage ≥ 1`. -/
theorem renderPagination_targets (s : State) (type : Kind) (p n : Int)
    (hn : 2 ≤ n) (hp1 : 1 ≤ p) (hpn : p ≤ n) :
    (∀ l ∈ (renderPagination s type ⟨p, n⟩).pagination type, 1 ≤ l.target ∧ l.target ≤ n) ∧
    (numberedLinks ((renderPagination s type ⟨p, n⟩).pagination type)).length ≤ 5 ∧
    ({ active := true, target := p, text := .page p } : PageLink)
      ∈ numberedLinks ((renderPagination s type ⟨p, n⟩).pagination type) ∧
    (∀ l ∈ (renderPagination s type ⟨p, n⟩).pagination type, ∀ s1 : State,
      (goToPage s1 l.target).currentPage = l.target ∧ 1 ≤ (goToPage s1 l.target).currentPage) := by
  have h1n : 1 < n := by omega
  obtain ⟨-, -, hmem, hact⟩ := pageNumberLoop_spec p (min n (p + 2))
    ((min n (p + 2)) + 1 - (max 1 (p - 2))).toNat (max 1 (p - 2)) rfl
  have hlen := pageNumberLoop_length p (min n (p + 2))
    ((min n (p + 2)) + 1 - (max 1 (p - 2))).toNat (max 1 (p - 2)) rfl
  have hrange : ∀ l ∈ paginationLinks ⟨p, n⟩, 1 ≤ l.target ∧ l.target ≤ n := by
    intro l hl
    rw [paginationLinks_shape p n h1n] at hl
    simp only [List.mem_append] at hl
    rcases hl with (hl | hl) | hl
    · split at hl
      · simp at hl; subst hl; simp; omega
      · simp at hl
    · have := (hmem l.target).mp (List.mem_map.mpr ⟨l, hl, rfl⟩)
      omega
    · split at hl
      · simp at hl; subst hl; simp; omega
      · simp at hl
  simp only [renderPagination, Function.update_same, numberedLinks_paginationLinks p n h1n]
  refine ⟨hrange, ?_, ?_, ?_⟩
  · rw [hlen]; omega
  · have hin : ({ active := true, target := p, text := .page p } : PageLink)
        ∈ (pageNumberLoop p (min n (p + 2)) (max 1 (p - 2))).filter (fun l => l.active) := by
      rw [hact, if_pos (by omega)]
      simp
    exact (List.mem_filter.mp hin).1
  · intro l hl s1
    exact ⟨rfl, (hrange l hl).1⟩

/-- C15, at `currentPage = 4`, `totalPages = 9`. -/
theorem renderPagination_targets_witness :
    (2 : Int) ≤ 9 ∧ (1 : Int) ≤ 4 ∧ (4 : Int) ≤ 9 ∧
    (numberedLinks ((renderPagination emptyPage .posts ⟨4, 9⟩).pagination .posts)).length ≤ 5 ∧
    ({ active := true, target := 4, text := .page 4 } : PageLink)
      ∈ numberedLinks ((renderPagination emptyPage .posts ⟨4, 9⟩).pagination .posts) :=
  ⟨by decide, by decide, by decide,
   (renderPagination_targets emptyPage .posts 4 9 (by decide) (by decide) (by decide)).2.1,
   (renderPagination_targets emptyPage .posts 4 9 (by decide) (by decide) (by decide)).2.2.1⟩

end ContentManager
